import Mathlib

set_option maxHeartbeats 1000000

/-!
Shallow embedding of the question/answer segmentation program
(`src/Question_Answer_segmentation.py`).

The core under verification is the line-classification state machine
`separate_qa_with_regex`.  The OCR stage (`source_pipeline`) is an external
collaborator of the core (spec section 6): the classifier is modelled as
consuming the list of extracted text blocks directly, one string per image.

Python strings are modelled through their lists of characters.  The regular
expressions of the source are fixed patterns and are compiled by hand into
the matching and substitution functions below; `\w` (Python `re` word
characters) and `\s` / `str.strip` whitespace are modelled at their ASCII
meaning, which covers every input appearing in the claims.  The Python
dictionary access `results[current_mode]` raises `KeyError` when
`current_mode` is a key other than "Questions"/"Answers"; every step of the
machine therefore returns an `Option`, with `none` as the error outcome, so
that unreachability of the error branch is a provable statement.
-/

/-- ASCII whitespace, the character set of Python `str.strip()` and of the
ASCII part of the regex class `\s`. -/
def isPySpace (c : Char) : Bool :=
  c == ' ' || c == '\t' || c == '\n' || c == '\r' || c == '\x0B' || c == '\x0C'

/-- Python `str.strip()` on a character list: drop leading and trailing
whitespace. -/
def pyStripL (l : List Char) : List Char :=
  ((l.dropWhile isPySpace).reverse.dropWhile isPySpace).reverse

/-- Python `str.strip()`. -/
def pyStrip (s : String) : String := ⟨pyStripL s.data⟩

/-- Regex `\w` (word character), at its ASCII meaning. -/
def isWordChar (c : Char) : Bool := c.isAlphanum || c == '_'

/-- Characters kept by `re.sub(r'[^\w\s\?\.\,\:\;\(\)\-]', '', line)`
(source line 111): word characters, whitespace and the listed punctuation. -/
def keepChar (c : Char) : Bool :=
  isWordChar c || isPySpace c || c == '?' || c == '.' || c == ',' ||
    c == ':' || c == ';' || c == '(' || c == ')' || c == '-'

/-- The character filter `re.sub(r'[^\w\s\?\.\,\:\;\(\)\-]', '', line)`. -/
def cleanLine (s : String) : String := ⟨s.data.filter keepChar⟩

/-- `re.sub(r'\s+', ' ', text)`: every maximal run of whitespace becomes a
single space. -/
def collapseWs : List Char → List Char
  | [] => []
  | [c] => if isPySpace c then [' '] else [c]
  | c :: c2 :: cs =>
    if isPySpace c && isPySpace c2 then collapseWs (c2 :: cs)
    else (if isPySpace c then ' ' else c) :: collapseWs (c2 :: cs)

/-- `re.sub(r'\s+', ' ', text).strip()` (source line 88): the whitespace
normalization applied by `save_current_item`. -/
def normWs (s : String) : String := ⟨pyStripL (collapseWs s.data)⟩

/-- Python `line.endswith('?')`. -/
def endsWithQmark (s : String) : Bool :=
  match s.data.getLast? with
  | some c => c == '?'
  | none => false

/-- The punctuation class `[\.\)\:\-]` used by the question and answer
marker regexes. -/
def isMarkerPunct (c : Char) : Bool := c == '.' || c == ')' || c == ':' || c == '-'

/-- `re.match(r'^[QqBb][\.\)\:\-]\s*', line)` (source line 76): the first
character is Q/q/B/b and the second is one of `.`, `)`, `:`, `-`.  The
trailing `\s*` matches the empty string, so it does not constrain matching. -/
def q_markers_match (s : String) : Bool :=
  match s.data with
  | c0 :: c1 :: _ => (c0 == 'Q' || c0 == 'q' || c0 == 'B' || c0 == 'b') && isMarkerPunct c1
  | _ => false

/-- `re.sub(q_markers, '', line)` (source line 147): since the pattern is
anchored at the start, the substitution removes the two marker characters
and the following whitespace run when the pattern matches, and nothing
otherwise. -/
def q_markers_sub (s : String) : String :=
  if q_markers_match s then ⟨(s.data.drop 2).dropWhile isPySpace⟩ else s

/-- First alternative of `a_markers`: `^[Aa][\.\)\:\-]\s*`. -/
def a_alt1 (l : List Char) : Bool :=
  match l with
  | c0 :: c1 :: _ => (c0 == 'A' || c0 == 'a') && isMarkerPunct c1
  | _ => false

/-- Second alternative of `a_markers`: `^[Aa]ns[\.\)\:\-]\s*`, with
`re.IGNORECASE` making the literals `n`, `s` case-insensitive. -/
def a_alt2 (l : List Char) : Bool :=
  match l with
  | c0 :: c1 :: c2 :: c3 :: _ =>
    (c0 == 'A' || c0 == 'a') && c1.toLower == 'n' && c2.toLower == 's' && isMarkerPunct c3
  | _ => false

/-- Third alternative of `a_markers`: `^[Aa]nswer[\.\)\:\-]\s*`, with
`re.IGNORECASE`. -/
def a_alt3 (l : List Char) : Bool :=
  match l with
  | c0 :: c1 :: c2 :: c3 :: c4 :: c5 :: c6 :: _ =>
    (c0 == 'A' || c0 == 'a') && c1.toLower == 'n' && c2.toLower == 's' &&
      c3.toLower == 'w' && c4.toLower == 'e' && c5.toLower == 'r' && isMarkerPunct c6
  | _ => false

/-- `re.match(a_markers, line, re.IGNORECASE)` (source line 79). -/
def a_markers_match (s : String) : Bool := a_alt1 s.data || a_alt2 s.data || a_alt3 s.data

/-- `re.sub(a_markers, '', line, flags=re.IGNORECASE)` (source line 160):
anchored alternation, alternatives tried left to right; the matching
alternative's characters and the following whitespace run are removed. -/
def a_markers_sub (s : String) : String :=
  if a_alt1 s.data then ⟨(s.data.drop 2).dropWhile isPySpace⟩
  else if a_alt2 s.data then ⟨(s.data.drop 4).dropWhile isPySpace⟩
  else if a_alt3 s.data then ⟨(s.data.drop 7).dropWhile isPySpace⟩
  else s

/-- The punctuation class `[\.\)\:]` of the subdivision pattern's first
alternative (no dash, unlike the marker classes). -/
def isSubPunct (c : Char) : Bool := c == '.' || c == ')' || c == ':'

/-- `[a-z]` under `re.IGNORECASE`, at its ASCII meaning. -/
def isAsciiLetterCI (c : Char) : Bool :=
  decide ('a' ≤ c.toLower) && decide (c.toLower ≤ 'z')

/-- First alternative of `subdivision`: `^\s*[a-z]\s*[\.\)\:]\s*`
(with `re.IGNORECASE`). -/
def subdiv_alt1 (l : List Char) : Bool :=
  match l.dropWhile isPySpace with
  | c :: rest =>
    isAsciiLetterCI c &&
      (match rest.dropWhile isPySpace with
       | p :: _ => isSubPunct p
       | [] => false)
  | [] => false

/-- Second alternative of `subdivision`: `^\s*\([a-z]\)\s*`. -/
def subdiv_alt2 (l : List Char) : Bool :=
  match l.dropWhile isPySpace with
  | c0 :: c1 :: c2 :: _ => c0 == '(' && isAsciiLetterCI c1 && c2 == ')'
  | _ => false

/-- Third alternative of `subdivision`: `^\s*[uw]\s*\)` (with
`re.IGNORECASE`). -/
def subdiv_alt3 (l : List Char) : Bool :=
  match l.dropWhile isPySpace with
  | c :: rest =>
    (c.toLower == 'u' || c.toLower == 'w') &&
      (match rest.dropWhile isPySpace with
       | p :: _ => p == ')'
       | [] => false)
  | [] => false

/-- `re.match(subdivision, line, re.IGNORECASE)` (source line 82). -/
def subdivision_match (s : String) : Bool :=
  subdiv_alt1 s.data || subdiv_alt2 s.data || subdiv_alt3 s.data

/-- The mutable state of `separate_qa_with_regex` (source lines 70-73):
the two output lists of the `results` dictionary, `current_mode`,
`current_text` and `previous_line_was_empty`. -/
structure PyState where
  questions : List String
  answers : List String
  current_mode : Option String
  current_text : String
  previous_line_was_empty : Bool
deriving DecidableEq

/-- Python truthiness of `current_mode`: `None` and the empty string are
falsy, every other string is truthy. -/
def truthy : Option String → Bool
  | none => false
  | some m => m != ""

/-- `save_current_item` (source lines 84-91).  The dictionary access
`results[current_mode]` is a `KeyError` (modelled as `none`) when
`current_mode` is truthy but not one of the two keys. -/
def save_current_item (s : PyState) : Option PyState :=
  if s.current_text ≠ "" ∧ truthy s.current_mode = true then
    if normWs s.current_text ≠ "" then
      if s.current_mode = some "Questions" then
        some { s with questions := s.questions ++ [normWs s.current_text], current_text := "" }
      else if s.current_mode = some "Answers" then
        some { s with answers := s.answers ++ [normWs s.current_text], current_text := "" }
      else none
    else some { s with current_text := "" }
  else some { s with current_text := "" }

/-- The cleaned form of a raw line: `line.strip()`, then the character
filter of source line 111, then the `strip()` of source line 112. -/
def cleaned (raw : String) : String := pyStrip (cleanLine (pyStrip raw))

/-- The body of the inner `for line in lines` loop of
`separate_qa_with_regex` (source lines 97-202), processing one raw line.
The Python code rebinds the variable `line` twice (strip at line 99, clean
at lines 111-112); here `pyStrip raw` plays the first binding and
`cleaned raw` the second. -/
def processLine (s : PyState) (raw : String) : Option PyState :=
  if pyStrip raw = "" then some { s with previous_line_was_empty := true }
  else if (pyStrip raw).length < 2 then some s
  else
    if cleaned raw = "" then some { s with previous_line_was_empty := true }
    else if endsWithQmark (cleaned raw) = true then
      match (if s.current_mode = some "Answers" ∧ s.current_text ≠ "" then
               save_current_item s
             else some s) with
      | none => none
      | some s1 =>
        if s1.current_mode = some "Questions" ∧ s1.current_text ≠ "" ∧
            s1.previous_line_was_empty = false then
          some { s1 with current_text := s1.current_text ++ " " ++ (cleaned raw),
                         previous_line_was_empty := false }
        else
          match save_current_item s1 with
          | none => none
          | some s2 =>
            some { s2 with current_mode := some "Questions", current_text := (cleaned raw),
                           previous_line_was_empty := false }
    else if q_markers_match (cleaned raw) = true then
      match save_current_item s with
      | none => none
      | some s1 =>
        some { s1 with current_mode := some "Questions",
                       current_text := pyStrip (q_markers_sub (cleaned raw)),
                       previous_line_was_empty := false }
    else if a_markers_match (cleaned raw) = true then
      match save_current_item s with
      | none => none
      | some s1 =>
        some { s1 with current_mode := some "Answers",
                       current_text := pyStrip (a_markers_sub (cleaned raw)),
                       previous_line_was_empty := false }
    else if subdivision_match (cleaned raw) = true then
      if s.current_text ≠ "" then
        some { s with current_text := s.current_text ++ " " ++ (cleaned raw),
                      previous_line_was_empty := false }
      else
        some { s with current_text := (cleaned raw), previous_line_was_empty := false }
    else if s.previous_line_was_empty = true ∧ s.current_mode = some "Questions" ∧
        s.current_text ≠ "" then
      match save_current_item s with
      | none => none
      | some s1 =>
        some { s1 with current_mode := some "Answers", current_text := (cleaned raw),
                       previous_line_was_empty := false }
    else if truthy s.current_mode = true then
      if s.current_text ≠ "" then
        some { s with current_text := s.current_text ++ " " ++ (cleaned raw),
                      previous_line_was_empty := false }
      else
        some { s with current_text := (cleaned raw), previous_line_was_empty := false }
    else
      some { s with current_mode := some "Questions", current_text := (cleaned raw),
                    previous_line_was_empty := false }

/-- Python `text.split('\n')` on a character list: split at every newline;
the empty text yields one empty piece. -/
def splitOnNl : List Char → List (List Char)
  | [] => [[]]
  | c :: cs =>
    if c == '\n' then [] :: splitOnNl cs
    else
      match splitOnNl cs with
      | [] => [[c]]
      | l :: ls => (c :: l) :: ls

/-- `text.split('\n')` (source line 95). -/
def splitLines (text : String) : List String := (splitOnNl text.data).map fun l => ⟨l⟩

/-- The inner `for line in lines` loop over a whole list of lines. -/
def processLines : PyState → List String → Option PyState
  | s, [] => some s
  | s, l :: rest =>
    match processLine s l with
    | none => none
    | some s1 => processLines s1 rest

/-- One iteration of the outer `for img_path in image_list` loop (source
lines 93-205): split the image's extracted text into lines, run the line
loop, then `save_current_item()` (source line 205). -/
def processImage (s : PyState) (text : String) : Option PyState :=
  match processLines s (splitLines text) with
  | none => none
  | some s1 => save_current_item s1

/-- The outer loop over all images' extracted texts. -/
def processImages : PyState → List String → Option PyState
  | s, [] => some s
  | s, t :: rest =>
    match processImage s t with
    | none => none
    | some s1 => processImages s1 rest

/-- The initial state (source lines 70-73). -/
def initState : PyState :=
  { questions := [], answers := [], current_mode := none, current_text := "",
    previous_line_was_empty := false }

/-- `separate_qa_with_regex` (source lines 61-207), taking the extracted
text of each image (the classifier core; OCR is external).  Returns the
`results` dictionary as the pair (Questions, Answers), or `none` if a
`KeyError` were reached. -/
def separate_qa_with_regex (texts : List String) : Option (List String × List String) :=
  (processImages initState texts).map fun s => (s.questions, s.answers)


/-! ### Generic facts about the string primitives -/

theorem mem_dropWhile_of_mem {p : Char → Bool} {c : Char} {l : List Char}
    (hm : c ∈ l) (hc : p c = false) : c ∈ l.dropWhile p := by
  induction l with
  | nil => cases hm
  | cons a l ih =>
    rw [List.dropWhile_cons]
    by_cases hpa : p a = true
    · rw [if_pos hpa]
      rcases List.mem_cons.mp hm with rfl | hm'
      · rw [hpa] at hc; cases hc
      · exact ih hm'
    · rw [if_neg hpa]
      exact hm

theorem dropWhile_head_false {p : Char → Bool} :
    ∀ {l : List Char} {c : Char} {rest : List Char},
      l.dropWhile p = c :: rest → p c = false := by
  intro l
  induction l with
  | nil => intro c rest h; simp [List.dropWhile] at h
  | cons a l ih =>
    intro c rest h
    rw [List.dropWhile_cons] at h
    by_cases hpa : p a = true
    · rw [if_pos hpa] at h; exact ih h
    · rw [if_neg hpa] at h
      rcases List.cons.injEq a l c rest ▸ h with ⟨rfl, -⟩
      exact Bool.not_eq_true _ ▸ hpa

theorem dropWhile_eq_nil_of_all {p : Char → Bool} :
    ∀ {l : List Char}, (∀ c ∈ l, p c = true) → l.dropWhile p = [] := by
  intro l
  induction l with
  | nil => intro _; rfl
  | cons a l ih =>
    intro h
    rw [List.dropWhile_cons, if_pos (h a (List.mem_cons_self a l))]
    exact ih fun c hc => h c (List.mem_cons_of_mem _ hc)

theorem mem_pyStripL_of_mem {c : Char} {l : List Char} (hm : c ∈ l)
    (hc : isPySpace c = false) : c ∈ pyStripL l := by
  unfold pyStripL
  rw [List.mem_reverse]
  exact mem_dropWhile_of_mem (List.mem_reverse.mpr (mem_dropWhile_of_mem hm hc)) hc

theorem mem_collapseWs_of_mem {c : Char} (hc : isPySpace c = false) :
    ∀ {l : List Char}, c ∈ l → c ∈ collapseWs l := by
  intro l
  induction l with
  | nil => intro h; cases h
  | cons a l ih =>
    intro hm
    cases l with
    | nil =>
      rcases List.mem_singleton.mp hm with rfl
      unfold collapseWs
      rw [if_neg (by simp [hc])]
      exact List.mem_singleton.mpr rfl
    | cons b l2 =>
      unfold collapseWs
      rcases List.mem_cons.mp hm with rfl | hm'
      · rw [if_neg (by simp [hc]), if_neg (by simp [hc])]
        exact List.mem_cons_self _ _
      · by_cases hab : (isPySpace a && isPySpace b) = true
        · rw [if_pos hab]; exact ih hm'
        · rw [if_neg hab]; exact List.mem_cons_of_mem _ (ih hm')

theorem mem_of_mem_collapseWs :
    ∀ {l : List Char} {c : Char}, c ∈ collapseWs l → c ∈ l ∨ c = ' ' := by
  intro l
  induction l with
  | nil => intro c h; cases h
  | cons a l ih =>
    intro c hm
    cases l with
    | nil =>
      unfold collapseWs at hm
      by_cases ha : isPySpace a = true
      · rw [if_pos ha] at hm
        exact Or.inr (List.mem_singleton.mp hm)
      · rw [if_neg ha] at hm
        exact Or.inl (List.mem_singleton.mp hm ▸ List.mem_singleton.mpr rfl)
    | cons b l2 =>
      unfold collapseWs at hm
      by_cases hab : (isPySpace a && isPySpace b) = true
      · rw [if_pos hab] at hm
        rcases ih hm with h | h
        · exact Or.inl (List.mem_cons_of_mem _ h)
        · exact Or.inr h
      · rw [if_neg hab] at hm
        rcases List.mem_cons.mp hm with rfl | hm'
        · by_cases ha : isPySpace a = true
          · rw [if_pos ha]; exact Or.inr rfl
          · rw [if_neg ha]; exact Or.inl (List.mem_cons_self _ _)
        · rcases ih hm' with h | h
          · exact Or.inl (List.mem_cons_of_mem _ h)
          · exact Or.inr h

theorem pyStripL_eq_nil_of_all_ws {l : List Char}
    (h : ∀ c ∈ l, isPySpace c = true) : pyStripL l = [] := by
  unfold pyStripL
  rw [dropWhile_eq_nil_of_all h]
  rfl

theorem normWs_eq_empty_of_all_ws {s : String}
    (h : ∀ c ∈ s.data, isPySpace c = true) : normWs s = "" := by
  unfold normWs
  have h2 : ∀ c ∈ collapseWs s.data, isPySpace c = true := by
    intro c hc
    rcases mem_of_mem_collapseWs hc with hcl | rfl
    · exact h c hcl
    · rfl
  rw [pyStripL_eq_nil_of_all_ws h2]

theorem stringMk_data_eq {l : List Char} (h : (⟨l⟩ : String) = "") : l = [] :=
  congrArg String.data h

theorem normWs_ne_empty_of_mem {l : List Char} {c : Char} (hm : c ∈ l)
    (hc : isPySpace c = false) : (⟨pyStripL (collapseWs l)⟩ : String) ≠ "" := by
  intro hnil
  exact List.not_mem_nil c
    (stringMk_data_eq hnil ▸ mem_pyStripL_of_mem (mem_collapseWs_of_mem hc hm) hc)

theorem normWs_normWs_ne_empty {s : String} (h : normWs s ≠ "") :
    normWs (normWs s) ≠ "" := by
  unfold normWs at h ⊢
  rcases hW : (((collapseWs s.data).dropWhile isPySpace).reverse.dropWhile isPySpace) with _ | ⟨c, rest⟩
  · exfalso
    apply h
    show (⟨pyStripL (collapseWs s.data)⟩ : String) = ""
    unfold pyStripL
    rw [hW]
    rfl
  · have hc : isPySpace c = false := dropWhile_head_false hW
    have hmem : c ∈ pyStripL (collapseWs s.data) := by
      unfold pyStripL
      rw [hW]
      exact List.mem_reverse.mpr (List.mem_cons_self _ _)
    exact normWs_ne_empty_of_mem hmem hc

/-! ### Structural facts about the classifier steps -/

/-- `new` extends `old` on the right, and every appended entry is non-empty,
also after another round of whitespace normalization. -/
def GrowsOk (old new : List String) : Prop :=
  ∃ e, new = old ++ e ∧ ∀ x ∈ e, x ≠ "" ∧ normWs x ≠ ""

theorem growsOk_refl (l : List String) : GrowsOk l l :=
  ⟨[], by simp, by simp⟩

theorem growsOk_trans {a b c : List String} (h1 : GrowsOk a b) (h2 : GrowsOk b c) :
    GrowsOk a c := by
  rcases h1 with ⟨e1, rfl, h1⟩
  rcases h2 with ⟨e2, rfl, h2⟩
  refine ⟨e1 ++ e2, by simp, ?_⟩
  intro x hx
  rcases List.mem_append.mp hx with h | h
  · exact h1 x h
  · exact h2 x h

/-- Everything `save_current_item` does when it succeeds: mode and blank
flag are untouched, the buffer is emptied, and each output list either stays
or receives one non-empty normalized entry. -/
theorem save_shape {s s' : PyState} (h : save_current_item s = some s') :
    s'.current_mode = s.current_mode ∧ s'.current_text = "" ∧
    s'.previous_line_was_empty = s.previous_line_was_empty ∧
    GrowsOk s.questions s'.questions ∧ GrowsOk s.answers s'.answers := by
  unfold save_current_item at h
  split at h
  · split at h
    · rename_i hnorm
      split at h
      · injection h with h
        subst h
        refine ⟨rfl, rfl, rfl, ⟨[normWs s.current_text], rfl, ?_⟩, growsOk_refl _⟩
        intro x hx
        rcases List.mem_singleton.mp hx with rfl
        exact ⟨hnorm, normWs_normWs_ne_empty hnorm⟩
      · split at h
        · injection h with h
          subst h
          refine ⟨rfl, rfl, rfl, growsOk_refl _, ⟨[normWs s.current_text], rfl, ?_⟩⟩
          intro x hx
          rcases List.mem_singleton.mp hx with rfl
          exact ⟨hnorm, normWs_normWs_ne_empty hnorm⟩
        · cases h
    · injection h with h
      subst h
      exact ⟨rfl, rfl, rfl, growsOk_refl _, growsOk_refl _⟩
  · injection h with h
    subst h
    exact ⟨rfl, rfl, rfl, growsOk_refl _, growsOk_refl _⟩


/-- Whatever one line does to the state, the two output lists only grow, by
non-empty normalized entries. -/
theorem processLine_shape {s : PyState} {raw : String} {s' : PyState}
    (h : processLine s raw = some s') :
    GrowsOk s.questions s'.questions ∧ GrowsOk s.answers s'.answers := by
  unfold processLine at h
  by_cases h1 : pyStrip raw = ""
  · rw [if_pos h1] at h
    injection h with h; subst h; exact ⟨growsOk_refl _, growsOk_refl _⟩
  · rw [if_neg h1] at h
    by_cases h2 : (pyStrip raw).length < 2
    · rw [if_pos h2] at h
      injection h with h; subst h; exact ⟨growsOk_refl _, growsOk_refl _⟩
    · rw [if_neg h2] at h
      by_cases h3 : cleaned raw = ""
      · rw [if_pos h3] at h
        injection h with h; subst h; exact ⟨growsOk_refl _, growsOk_refl _⟩
      · rw [if_neg h3] at h
        by_cases h4 : endsWithQmark (cleaned raw) = true
        · rw [if_pos h4] at h
          by_cases h5 : s.current_mode = some "Answers" ∧ s.current_text ≠ ""
          · rw [if_pos h5] at h
            rcases hsv : save_current_item s with _ | s1
            · rw [hsv] at h; cases h
            · rw [hsv] at h
              simp only [] at h
              have hsh1 := save_shape hsv
              by_cases h6 : s1.current_mode = some "Questions" ∧ s1.current_text ≠ "" ∧
                  s1.previous_line_was_empty = false
              · rw [if_pos h6] at h
                injection h with h; subst h
                exact ⟨hsh1.2.2.2.1, hsh1.2.2.2.2⟩
              · rw [if_neg h6] at h
                rcases hsv2 : save_current_item s1 with _ | s2
                · rw [hsv2] at h; cases h
                · rw [hsv2] at h
                  simp only [] at h
                  have hsh2 := save_shape hsv2
                  injection h with h; subst h
                  exact ⟨growsOk_trans hsh1.2.2.2.1 hsh2.2.2.2.1,
                         growsOk_trans hsh1.2.2.2.2 hsh2.2.2.2.2⟩
          · rw [if_neg h5] at h
            simp only [] at h
            by_cases h6 : s.current_mode = some "Questions" ∧ s.current_text ≠ "" ∧
                s.previous_line_was_empty = false
            · rw [if_pos h6] at h
              injection h with h; subst h
              exact ⟨growsOk_refl _, growsOk_refl _⟩
            · rw [if_neg h6] at h
              rcases hsv : save_current_item s with _ | s2
              · rw [hsv] at h; cases h
              · rw [hsv] at h
                simp only [] at h
                have hsh := save_shape hsv
                injection h with h; subst h
                exact ⟨hsh.2.2.2.1, hsh.2.2.2.2⟩
        · rw [if_neg h4] at h
          by_cases h7 : q_markers_match (cleaned raw) = true
          · rw [if_pos h7] at h
            rcases hsv : save_current_item s with _ | s1
            · rw [hsv] at h; cases h
            · rw [hsv] at h
              simp only [] at h
              have hsh := save_shape hsv
              injection h with h; subst h
              exact ⟨hsh.2.2.2.1, hsh.2.2.2.2⟩
          · rw [if_neg h7] at h
            by_cases h8 : a_markers_match (cleaned raw) = true
            · rw [if_pos h8] at h
              rcases hsv : save_current_item s with _ | s1
              · rw [hsv] at h; cases h
              · rw [hsv] at h
                simp only [] at h
                have hsh := save_shape hsv
                injection h with h; subst h
                exact ⟨hsh.2.2.2.1, hsh.2.2.2.2⟩
            · rw [if_neg h8] at h
              by_cases h9 : subdivision_match (cleaned raw) = true
              · rw [if_pos h9] at h
                by_cases h10 : s.current_text ≠ ""
                · rw [if_pos h10] at h
                  injection h with h; subst h; exact ⟨growsOk_refl _, growsOk_refl _⟩
                · rw [if_neg h10] at h
                  injection h with h; subst h; exact ⟨growsOk_refl _, growsOk_refl _⟩
              · rw [if_neg h9] at h
                by_cases h11 : s.previous_line_was_empty = true ∧
                    s.current_mode = some "Questions" ∧ s.current_text ≠ ""
                · rw [if_pos h11] at h
                  rcases hsv : save_current_item s with _ | s1
                  · rw [hsv] at h; cases h
                  · rw [hsv] at h
                    simp only [] at h
                    have hsh := save_shape hsv
                    injection h with h; subst h
                    exact ⟨hsh.2.2.2.1, hsh.2.2.2.2⟩
                · rw [if_neg h11] at h
                  by_cases h12 : truthy s.current_mode = true
                  · rw [if_pos h12] at h
                    by_cases h13 : s.current_text ≠ ""
                    · rw [if_pos h13] at h
                      injection h with h; subst h; exact ⟨growsOk_refl _, growsOk_refl _⟩
                    · rw [if_neg h13] at h
                      injection h with h; subst h; exact ⟨growsOk_refl _, growsOk_refl _⟩
                  · rw [if_neg h12] at h
                    injection h with h; subst h; exact ⟨growsOk_refl _, growsOk_refl _⟩

/-- The only values `current_mode` ever takes in the source: `None` or one
of the two dictionary keys. -/
def modeOk (s : PyState) : Prop :=
  s.current_mode = none ∨ s.current_mode = some "Questions" ∨
    s.current_mode = some "Answers"

theorem save_total {s : PyState} (h : modeOk s) :
    ∃ s', save_current_item s = some s' ∧ s'.current_mode = s.current_mode := by
  unfold save_current_item
  by_cases hc : s.current_text ≠ "" ∧ truthy s.current_mode = true
  · rw [if_pos hc]
    by_cases hn : normWs s.current_text ≠ ""
    · rw [if_pos hn]
      rcases h with hm | hm | hm
      · rw [hm] at hc
        exact absurd hc.2 (by simp [truthy])
      · rw [if_pos hm]
        exact ⟨_, rfl, rfl⟩
      · rw [if_neg (by rw [hm]; simp), if_pos hm]
        exact ⟨_, rfl, rfl⟩
    · rw [if_neg hn]
      exact ⟨_, rfl, rfl⟩
  · rw [if_neg hc]
    exact ⟨_, rfl, rfl⟩

theorem processLine_total {s : PyState} (raw : String) (h : modeOk s) :
    ∃ s', processLine s raw = some s' ∧ modeOk s' := by
  unfold processLine
  by_cases h1 : pyStrip raw = ""
  · rw [if_pos h1]; exact ⟨_, rfl, h⟩
  · rw [if_neg h1]
    by_cases h2 : (pyStrip raw).length < 2
    · rw [if_pos h2]; exact ⟨_, rfl, h⟩
    · rw [if_neg h2]
      by_cases h3 : cleaned raw = ""
      · rw [if_pos h3]; exact ⟨_, rfl, h⟩
      · rw [if_neg h3]
        by_cases h4 : endsWithQmark (cleaned raw) = true
        · rw [if_pos h4]
          by_cases h5 : s.current_mode = some "Answers" ∧ s.current_text ≠ ""
          · rw [if_pos h5]
            obtain ⟨s1, hs1, hm1⟩ := save_total h
            rw [hs1]
            simp only []
            have hmo1 : modeOk s1 := by unfold modeOk; rw [hm1]; exact h
            by_cases h6 : s1.current_mode = some "Questions" ∧ s1.current_text ≠ "" ∧
                s1.previous_line_was_empty = false
            · rw [if_pos h6]; exact ⟨_, rfl, hmo1⟩
            · rw [if_neg h6]
              obtain ⟨s2, hs2, hm2⟩ := save_total hmo1
              rw [hs2]
              simp only []
              exact ⟨_, rfl, Or.inr (Or.inl rfl)⟩
          · rw [if_neg h5]
            simp only []
            by_cases h6 : s.current_mode = some "Questions" ∧ s.current_text ≠ "" ∧
                s.previous_line_was_empty = false
            · rw [if_pos h6]; exact ⟨_, rfl, h⟩
            · rw [if_neg h6]
              obtain ⟨s2, hs2, hm2⟩ := save_total h
              rw [hs2]
              simp only []
              exact ⟨_, rfl, Or.inr (Or.inl rfl)⟩
        · rw [if_neg h4]
          by_cases h7 : q_markers_match (cleaned raw) = true
          · rw [if_pos h7]
            obtain ⟨s1, hs1, hm1⟩ := save_total h
            rw [hs1]
            simp only []
            exact ⟨_, rfl, Or.inr (Or.inl rfl)⟩
          · rw [if_neg h7]
            by_cases h8 : a_markers_match (cleaned raw) = true
            · rw [if_pos h8]
              obtain ⟨s1, hs1, hm1⟩ := save_total h
              rw [hs1]
              simp only []
              exact ⟨_, rfl, Or.inr (Or.inr rfl)⟩
            · rw [if_neg h8]
              by_cases h9 : subdivision_match (cleaned raw) = true
              · rw [if_pos h9]
                by_cases h10 : s.current_text ≠ ""
                · rw [if_pos h10]; exact ⟨_, rfl, h⟩
                · rw [if_neg h10]; exact ⟨_, rfl, h⟩
              · rw [if_neg h9]
                by_cases h11 : s.previous_line_was_empty = true ∧
                    s.current_mode = some "Questions" ∧ s.current_text ≠ ""
                · rw [if_pos h11]
                  obtain ⟨s1, hs1, hm1⟩ := save_total h
                  rw [hs1]
                  simp only []
                  exact ⟨_, rfl, Or.inr (Or.inr rfl)⟩
                · rw [if_neg h11]
                  by_cases h12 : truthy s.current_mode = true
                  · rw [if_pos h12]
                    by_cases h13 : s.current_text ≠ ""
                    · rw [if_pos h13]; exact ⟨_, rfl, h⟩
                    · rw [if_neg h13]; exact ⟨_, rfl, h⟩
                  · rw [if_neg h12]
                    exact ⟨_, rfl, Or.inr (Or.inl rfl)⟩

theorem processLines_total :
    ∀ (lines : List String) {s : PyState}, modeOk s →
      ∃ s', processLines s lines = some s' ∧ modeOk s' := by
  intro lines
  induction lines with
  | nil => intro s h; exact ⟨s, rfl, h⟩
  | cons l rest ih =>
    intro s h
    obtain ⟨s1, hs1, hm1⟩ := processLine_total l h
    obtain ⟨s2, hs2, hm2⟩ := ih hm1
    refine ⟨s2, ?_, hm2⟩
    unfold processLines
    rw [hs1]
    simp only []
    exact hs2

theorem processImage_total {s : PyState} (text : String) (h : modeOk s) :
    ∃ s', processImage s text = some s' ∧ modeOk s' := by
  obtain ⟨s1, hs1, hm1⟩ := processLines_total (splitLines text) h
  obtain ⟨s2, hs2, hm2⟩ := save_total hm1
  refine ⟨s2, ?_, ?_⟩
  · unfold processImage
    rw [hs1]
    simp only []
    exact hs2
  · unfold modeOk
    rw [hm2]
    exact hm1

theorem processImages_total :
    ∀ (texts : List String) {s : PyState}, modeOk s →
      ∃ s', processImages s texts = some s' ∧ modeOk s' := by
  intro texts
  induction texts with
  | nil => intro s h; exact ⟨s, rfl, h⟩
  | cons t rest ih =>
    intro s h
    obtain ⟨s1, hs1, hm1⟩ := processImage_total t h
    obtain ⟨s2, hs2, hm2⟩ := ih hm1
    refine ⟨s2, ?_, hm2⟩
    unfold processImages
    rw [hs1]
    simp only []
    exact hs2

/-! ### The claims -/

/-- Claim C1, counterexample: after processing an image the buffer is never
left open, because `save_current_item()` runs at the end of every image
(source line 205 sits inside the `for img_path` loop).  A question split
across two images therefore yields two reconstructed question items, not
one: the two-image run below produces a Questions list of length 2. -/
theorem C1_counterexample :
    processImage initState "Q.) Explain caching" =
      some ⟨[") Explain caching"], [], some "Questions", "", false⟩ ∧
    separate_qa_with_regex ["Q.) Explain caching", "in distributed systems"] =
      some ([") Explain caching", "in distributed systems"], []) ∧
    (separate_qa_with_regex ["Q.) Explain caching", "in distributed systems"]).map
      (fun r => r.1.length) = some 2 := by
  refine ⟨by decide, by decide, by decide⟩

/-- Claim C1, amended: the buffer does not persist across image boundaries
(it is finalized after every image, so `current_text` is empty whenever
`processImage` returns), while `current_mode` and the blank flag do persist;
the first non-blank non-marker line of the next image therefore starts a new
buffer under the persisted `Questions` mode, and the split question comes
out as two Questions entries. -/
theorem C1_theorem :
    (∀ (s : PyState) (text : String) (s' : PyState),
        processImage s text = some s' → s'.current_text = "") ∧
    separate_qa_with_regex ["Q.) Explain caching", "in distributed systems"] =
      some ([") Explain caching", "in distributed systems"], []) := by
  constructor
  · intro s text s' h
    unfold processImage at h
    rcases hp : processLines s (splitLines text) with _ | s1
    · rw [hp] at h; cases h
    · rw [hp] at h
      simp only [] at h
      exact (save_shape h).2.1
  · decide

/-- Witness for C1: the empty-text image, processed from the initial state,
ends with an empty buffer. -/
theorem C1_witness : (⟨[], [], none, "", true⟩ : PyState).current_text = "" :=
  C1_theorem.1 initState "" ⟨[], [], none, "", true⟩ (by decide)

/-- Claim C2, counterexample: the claim expects the line to survive
unchanged, but the character filter of source line 111 removes `+` (it is
not in the allowed set), so the stored question is not
"Q.) What is 2+2?". -/
theorem C2_counterexample :
    separate_qa_with_regex ["Q.) What is 2+2?"] ≠ some (["Q.) What is 2+2?"], []) := by
  decide

/-- Claim C2, amended: for the single input line "Q.) What is 2+2?" the
question-ending rule fires before the question-marker rule, so the marker
is not stripped; but the character filter removes the `+`, and the stored
result is Questions = ["Q.) What is 22?"] with Answers empty. -/
theorem C2_theorem :
    separate_qa_with_regex ["Q.) What is 2+2?"] = some (["Q.) What is 22?"], []) := by
  decide

/-- Claim C3, counterexample: "a) first part" is a line of the lettered
subdivision form, yet processing it from a state with an open Questions
buffer finalizes that buffer and switches the mode to Answers, because the
answer-marker rule (`^[Aa][\.\)\:\-]`, source line 154) fires on it before
the subdivision rule is reached. -/
theorem C3_counterexample :
    subdivision_match "a) first part" = true ∧
    processLine ⟨[], [], some "Questions", ") Define OS", false⟩ "a) first part" =
      some ⟨[") Define OS"], [], some "Answers", "first part", false⟩ ∧
    (some "Answers" : Option String) ≠ some "Questions" := by
  refine ⟨by decide, by decide, by decide⟩

/-- Claim C3, amended: a line whose cleaned form matches the subdivision
pattern is appended whole (marker included) to the open buffer, leaving the
mode and the output lists untouched, only when it matches none of the three
higher-priority rules (question-ending, question-marker, answer-marker) —
which excludes the claim's examples "a)" (an answer marker) and "b."
(a question marker by the B/Q OCR confusion). -/
theorem C3_theorem (s : PyState) (raw : String)
    (h0 : s.current_text ≠ "")
    (h1 : pyStrip raw ≠ "")
    (h2 : ¬(pyStrip raw).length < 2)
    (h3 : cleaned raw ≠ "")
    (h4 : endsWithQmark (cleaned raw) = false)
    (h5 : q_markers_match (cleaned raw) = false)
    (h6 : a_markers_match (cleaned raw) = false)
    (h7 : subdivision_match (cleaned raw) = true) :
    processLine s raw =
      some { s with current_text := s.current_text ++ " " ++ cleaned raw,
                    previous_line_was_empty := false } := by
  unfold processLine
  rw [if_neg h1, if_neg h2, if_neg h3, if_neg (by simp [h4]), if_neg (by simp [h5]),
      if_neg (by simp [h6]), if_pos h7, if_pos h0]

/-- Witness for C3: the subdivision line "c) uses cache" (whose letter is
not an answer or question marker) extends an open Questions buffer in
place. -/
theorem C3_witness :
    processLine ⟨[], [], some "Questions", "Define OS", false⟩ "c) uses cache" =
      some ⟨[], [], some "Questions", "Define OS c) uses cache", false⟩ := by
  have h := C3_theorem ⟨[], [], some "Questions", "Define OS", false⟩ "c) uses cache"
    (by decide) (by decide) (by decide) (by decide) (by decide) (by decide)
    (by decide) (by decide)
  rw [h]
  decide

/-- Claim C4, counterexample: the biconditional "Mode is None iff the
buffer is empty" fails in both directions on reachable states.  Processing
the single line "(c) something" from the initial state reaches a state with
`current_mode = none` and a non-empty buffer; processing the image
"Q.) Define OS" ends (immediately after a finalization) with
`current_mode = some "Questions"` and an empty buffer. -/
theorem C4_counterexample :
    processLines initState ["(c) something"] =
      some ⟨[], [], none, "(c) something", false⟩ ∧
    ("(c) something" : String) ≠ "" ∧
    processImage initState "Q.) Define OS" =
      some ⟨[") Define OS"], [], some "Questions", "", false⟩ ∧
    (some "Questions" : Option String) ≠ none := by
  refine ⟨by decide, by decide, by decide, by decide⟩

/-- Claim C4, amended: the biconditional does not hold; what does hold is
that finalization always empties the buffer (so immediately after any
successful `save_current_item` the buffer is empty), while the mode may
remain set, and a subdivision line with no mode set yields `Mode = None`
with a non-empty buffer. -/
theorem C4_theorem (s s' : PyState) (h : save_current_item s = some s') :
    s'.current_text = "" :=
  (save_shape h).2.1

/-- Witness for C4: finalizing a one-word Questions buffer leaves the
buffer empty. -/
theorem C4_witness : (⟨["x"], [], some "Questions", "", false⟩ : PyState).current_text = "" :=
  C4_theorem ⟨[], [], some "Questions", "x", false⟩
    ⟨["x"], [], some "Questions", "", false⟩ (by decide)

/-- Claim C5 (confirmed): a line matching only the subdivision rule,
processed while Mode is None, starts a buffer without setting Mode, and the
final flush silently drops it because `save_current_item` requires a truthy
mode: the single input line "(c) something" yields two empty output
lists. -/
theorem C5_theorem :
    separate_qa_with_regex ["(c) something"] = some ([], []) ∧
    processLine initState "(c) something" =
      some ⟨[], [], none, "(c) something", false⟩ := by
  refine ⟨by decide, by decide⟩

/-- Claim C6, counterexample: the question-marker regex
`^[QqBb][\.\)\:\-]\s*` matches only the two characters "Q." of
"Q.) Define OS", so the substitution leaves ") Define OS"; the stored
question is not "Define OS". -/
theorem C6_counterexample :
    (processImage initState "Q.) Define OS\n\nAn operating system manages resources.").map
      PyState.questions ≠ some ["Define OS"] := by
  decide

/-- Claim C6, amended: for the three input lines the blank-transition rule
works as described (the blank line sets the flag, the following line
finalizes the question and switches the mode to Answers), but the stored
question is ") Define OS" because the marker substitution removes only
"Q." and leaves the ")". -/
theorem C6_theorem :
    separate_qa_with_regex ["Q.) Define OS\n\nAn operating system manages resources."] =
      some ([") Define OS"], ["An operating system manages resources."]) := by
  decide

/-- Claim C7 (confirmed): the classifier is total — for every sequence of
image texts the run returns a result and the error branch (the `KeyError`
of `results[current_mode]`, modelled as `none`) is unreachable, because
`current_mode` only ever holds `None`, "Questions" or "Answers". -/
theorem C7_theorem (texts : List String) :
    (separate_qa_with_regex texts).isSome = true := by
  obtain ⟨s', hs', -⟩ := processImages_total texts (show modeOk initState from Or.inl rfl)
  unfold separate_qa_with_regex
  rw [hs']
  rfl

/-- Claim C8 (confirmed): finalizing an empty or whitespace-only buffer
never appends to either output list, and processing any line only ever
extends the two output lists on the right, by entries that are non-empty
and remain non-empty under whitespace normalization. -/
theorem C8_theorem :
    (∀ s : PyState, (∀ c ∈ s.current_text.data, isPySpace c = true) →
        ∃ s', save_current_item s = some s' ∧ s'.questions = s.questions ∧
          s'.answers = s.answers) ∧
    (∀ (s : PyState) (raw : String) (s' : PyState), processLine s raw = some s' →
        GrowsOk s.questions s'.questions ∧ GrowsOk s.answers s'.answers) := by
  constructor
  · intro s hws
    have ht : normWs s.current_text = "" := normWs_eq_empty_of_all_ws hws
    unfold save_current_item
    by_cases hc : s.current_text ≠ "" ∧ truthy s.current_mode = true
    · rw [if_pos hc, if_neg (by simp [ht])]
      exact ⟨_, rfl, rfl, rfl⟩
    · rw [if_neg hc]
      exact ⟨_, rfl, rfl, rfl⟩
  · intro s raw s' h
    exact processLine_shape h

/-- Witness for C8: finalizing a whitespace-only Questions buffer appends
nothing, and the blank-transition step on a concrete state grows the
Questions list by the single non-empty entry ") Define OS". -/
theorem C8_witness :
    (∃ s', save_current_item ⟨[], [], some "Questions", " ", false⟩ = some s' ∧
        s'.questions = ([] : List String) ∧ s'.answers = ([] : List String)) ∧
    (GrowsOk ([] : List String) [") Define OS"] ∧ GrowsOk ([] : List String) []) :=
  ⟨C8_theorem.1 ⟨[], [], some "Questions", " ", false⟩ (by decide),
   C8_theorem.2 ⟨[], [], some "Questions", ") Define OS", true⟩ "An answer"
     ⟨[") Define OS"], [], some "Answers", "An answer", false⟩ (by decide)⟩

/-- Claim C9, counterexample: an image whose extracted text is the empty
string is not a no-op.  Python's `"".split('\n')` is `[""]`, so the run
processes one blank line (setting `previous_line_was_empty` to true) and
then the per-image finalization flushes any open buffer. -/
theorem C9_counterexample :
    processImage initState "" = some ⟨[], [], none, "", true⟩ ∧
    initState.previous_line_was_empty = false ∧
    processImage ⟨[], [], some "Questions", "Define OS", false⟩ "" =
      some ⟨["Define OS"], [], some "Questions", "", true⟩ := by
  refine ⟨by decide, by decide, by decide⟩

/-- Claim C9, amended: processing an empty-text image is, from every
starting state, exactly processing one blank line followed by the per-image
finalization: the blank flag is set, the buffer is flushed (its normalized
content, if non-empty and a mode is set, is appended to that mode's list)
and then emptied; the mode itself is unchanged. -/
theorem C9_theorem (s : PyState) :
    processImage s "" = save_current_item { s with previous_line_was_empty := true } := rfl

/-- Claim C10, counterexample: a line whose stripped form has length 0
(the empty line) is not discarded silently — it sets
`previous_line_was_empty`, so the state changes. -/
theorem C10_counterexample :
    (pyStrip "").length < 2 ∧ processLine initState "" ≠ some initState := by
  refine ⟨by decide, by decide⟩

/-- Claim C10, amended: a line whose stripped form is non-empty and shorter
than 2 characters is discarded silently: the whole state — mode, buffer,
output lists and the blank flag — is returned unchanged. -/
theorem C10_theorem (s : PyState) (raw : String)
    (h1 : pyStrip raw ≠ "") (h2 : (pyStrip raw).length < 2) :
    processLine s raw = some s := by
  unfold processLine
  rw [if_neg h1, if_pos h2]

/-- Witness for C10: the one-character line "-" leaves the initial state
untouched. -/
theorem C10_witness : processLine initState "-" = some initState :=
  C10_theorem initState "-" (by decide) (by decide)
